import Mathlib

/-!
Shallow embedding of the `timerfd` one-shot timer backend
(`src/oneshot/timer_fd.rs` of the `async-timer` crate).

The OS and the reactor are modelled as explicit inputs: each operation takes
the responses the environment would give (the fd returned by `timerfd_create`,
the outcome of the non-blocking `read`, the readiness answer of
`poll_read_ready`) and returns the new timer value together with the list of
calls it issued to the OS/reactor.  A Rust panic (`debug_assert!`, `os_assert!`,
`expect`, `panic!`) terminates the program; it is modelled by the `.error`
branch of `Except String`, which no caller can recover from in this model.
-/

deriving instance DecidableEq for Except

namespace AsyncTimer

/-- `core::time::Duration`: seconds and sub-second nanoseconds. -/
structure Duration where
  secs : Nat
  nanos : Nat
deriving DecidableEq, Repr

/-- The zero-duration test used by the `debug_assert!` in `new`/`restart`:
`timeout.as_secs() == 0 && timeout.subsec_nanos() == 0`. -/
def Duration.isZero (d : Duration) : Bool :=
  d.secs == 0 && d.nanos == 0

def Duration.zero : Duration := ⟨0, 0⟩

/-- `itimerspec` as passed to `timerfd_settime`: interval and value. -/
structure Itimerspec where
  it_interval : Duration
  it_value : Duration
deriving DecidableEq, Repr

/-- The all-zero `itimerspec` (`mem::zeroed()`), which disarms the timer. -/
def Itimerspec.zeroed : Itimerspec := ⟨Duration.zero, Duration.zero⟩

/-- Calls issued to the OS timer facility / reactor, recorded as a trace. -/
inductive OsCall where
  | timerfd_create
  | timerfd_settime (v : Itimerspec)
  | fd_read
  | clear_read_ready
deriving DecidableEq, Repr

/-- `std::io::ErrorKind`, only the distinction the code makes. -/
inductive ErrorKind where
  | WouldBlock
  | Other (msg : String)
deriving DecidableEq, Repr

/-- Outcome of the OS `read(2)` on the timerfd: either an error kind
(`read` returned `-1`) or success with the 8-byte expiration count. -/
inductive ReadResult where
  | err (k : ErrorKind)
  | success (count : Nat)
deriving DecidableEq, Repr

/-- `RawTimer(c_int)`: owner of the timerfd file descriptor. -/
structure RawTimer where
  fd : Int
deriving DecidableEq, Repr

/-- `RawTimer::new`: calls `timerfd_create(CLOCK_MONOTONIC, TFD_NONBLOCK)`
and checks `os_assert!(fd != -1)`.  `osFd` is the value the OS returned.
The `os_assert!` macro itself is defined outside the files under `src/`;
modelled from the spec: creation failure is fatal (abort), represented by
`.error`. -/
def RawTimer.new (osFd : Int) : Except String (RawTimer × List OsCall) :=
  if osFd = -1 then .error "os_assert failed: fd != -1"
  else .ok (⟨osFd⟩, [.timerfd_create])

/-- `RawTimer::set`: `timerfd_settime(fd, 0, &timer, null)`.  The
`os_assert!(ret != -1)` on the result is not modelled as failing: claims do
not concern a failing `settime`, so the environment is taken to accept it. -/
def RawTimer.set (_t : RawTimer) (timer : Itimerspec) : List OsCall :=
  [.timerfd_settime timer]

/-- `RawTimer::read`: non-blocking `read` of the 8-byte expiration count.
`-1` with `WouldBlock` yields `0`; any other error panics
(`panic!("Unexpected read error: ...")`); success yields the count read. -/
def RawTimer.read (_t : RawTimer) (r : ReadResult) : Except String Nat :=
  match r with
  | .err .WouldBlock => .ok 0
  | .err (.Other msg) => .error ("Unexpected read error: " ++ msg)
  | .success n => .ok n

/-- `enum State { Init(Duration), Running(bool) }`. -/
inductive State where
  | Init (timeout : Duration)
  | Running (is_finished : Bool)
deriving DecidableEq, Repr

/-- Whether a state is the `Init` variant. -/
def State.isInit : State → Bool
  | .Init _ => true
  | .Running _ => false

/-- `set_timer_value(fd, timeout)`: builds an `itimerspec` with zeroed
`it_interval` and `it_value = timeout`, and calls `fd.set` on it. -/
def set_timer_value (fd : RawTimer) (timeout : Duration) : List OsCall :=
  RawTimer.set fd ⟨Duration.zero, timeout⟩

/-- `TimerFd { fd: PollEvented<RawTimer>, state: State }`.  The `PollEvented`
wrapper only bridges to the reactor; its readiness answers enter the model as
inputs of `poll`. -/
structure TimerFd where
  fd : RawTimer
  state : State
deriving DecidableEq, Repr

/-- `TimerFd::new`: `debug_assert!` against the zero timeout, then
`RawTimer::new()` (which performs `timerfd_create`) wrapped in
`PollEvented::new(..).expect(..)`, and state `Init(timeout)`. -/
def TimerFd.new (osFd : Int) (timeout : Duration) : Except String (TimerFd × List OsCall) :=
  if timeout.isZero then .error "Zero timeout makes no sense"
  else
    match RawTimer.new osFd with
    | .error e => .error e
    | .ok (raw, calls) => .ok ({ fd := raw, state := .Init timeout }, calls)

/-- `TimerFd::is_ticking`: `Init => false`, `Running(f) => !f`. -/
def TimerFd.is_ticking (t : TimerFd) : Bool :=
  match t.state with
  | .Init _ => false
  | .Running is_finished => !is_finished

/-- `TimerFd::is_expired`: `Init => false`, `Running(f) => f`. -/
def TimerFd.is_expired (t : TimerFd) : Bool :=
  match t.state with
  | .Init _ => false
  | .Running is_finished => is_finished

/-- `TimerFd::cancel`: `self.fd.get_mut().set(mem::zeroed())`.  The state
field is untouched; the only effect is a `timerfd_settime` with the all-zero
`itimerspec`, issued in every state. -/
def TimerFd.cancel (t : TimerFd) : TimerFd × List OsCall :=
  (t, RawTimer.set t.fd Itimerspec.zeroed)

/-- `TimerFd::restart`: `debug_assert!` against the zero timeout; in `Init`
overwrite the stored timeout, in `Running` clear `is_finished` and
`set_timer_value` with the new value.  The waker argument is ignored by the
source (`_: &task::Waker`). -/
def TimerFd.restart (t : TimerFd) (new_value : Duration) :
    Except String (TimerFd × List OsCall) :=
  if new_value.isZero then .error "Zero timeout makes no sense"
  else
    match t.state with
    | .Init _ => .ok ({ t with state := .Init new_value }, [])
    | .Running _ => .ok ({ t with state := .Running false }, set_timer_value t.fd new_value)

/-- Result of one `Future::poll` call. -/
inductive PollOut where
  | pending
  | ready
deriving DecidableEq, Repr

/-- The reactor's answer to `poll_read_ready`: `Pending`,
`Ready(Ok(ready))` with `ready.is_readable()`, or `Ready(Err(..))`. -/
inductive ReadyPoll where
  | pending
  | readyOk (is_readable : Bool)
  | readyErr
deriving DecidableEq, Repr

/-- The `State::Running(false)` arm of the poll loop: ask `poll_read_ready`;
on `Pending` or a non-readable readiness return `Pending`; on a readiness
error panic via `.expect("timerfd cannot be ready")`; when readable, clear
the read-readiness edge and `read()` the timerfd: count `0` returns
`Pending`, a positive count returns `Ready(())`.  Every exit leaves the
timer value (in particular its state) unchanged. -/
def TimerFd.pollArmed (t : TimerFd) (readiness : ReadyPoll) (r : ReadResult)
    (acc : List OsCall) : Except String (PollOut × TimerFd × List OsCall) :=
  match readiness with
  | .pending => .ok (.pending, t, acc)
  | .readyErr => .error "timerfd cannot be ready"
  | .readyOk false => .ok (.pending, t, acc)
  | .readyOk true =>
    match RawTimer.read t.fd r with
    | .error e => .error e
    | .ok 0 => .ok (.pending, t, acc ++ [.clear_read_ready, .fd_read])
    | .ok (Nat.succ _) => .ok (.ready, t, acc ++ [.clear_read_ready, .fd_read])

/-- `Future::poll` for `TimerFd`.  From `Init(timeout)` the loop arms the
timer (`set_timer_value`), assigns `Running(false)` and falls through to the
`Running(false)` arm within the same call; from `Running(false)` it runs that
arm directly; from `Running(true)` it returns `Ready(())`.  Note that the
`Running(false)` arm returns `Ready(())` without assigning `Running(true)`. -/
def TimerFd.poll (t : TimerFd) (readiness : ReadyPoll) (r : ReadResult) :
    Except String (PollOut × TimerFd × List OsCall) :=
  match t.state with
  | .Init timeout =>
      TimerFd.pollArmed { t with state := .Running false } readiness r
        (set_timer_value t.fd timeout)
  | .Running false => TimerFd.pollArmed t readiness r []
  | .Running true => .ok (.ready, t, [])

/-- Interpretation of one call on the OS timer configuration (the currently
armed `itimerspec`): only `timerfd_settime` replaces it. -/
def applyCall (cfg : Itimerspec) : OsCall → Itimerspec
  | .timerfd_settime v => v
  | _ => cfg

/-- Interpretation of a call trace on the OS timer configuration. -/
def applyCalls (cfg : Itimerspec) (cs : List OsCall) : Itimerspec :=
  cs.foldl applyCall cfg

/-- One public operation on a timer, with the environment responses it
consumes. -/
inductive Op where
  | cancel
  | restart (d : Duration)
  | poll (readiness : ReadyPoll) (r : ReadResult)
deriving DecidableEq, Repr

/-- Apply one public operation, keeping only the resulting timer value. -/
def TimerFd.step (t : TimerFd) : Op → Except String TimerFd
  | .cancel => .ok (t.cancel).1
  | .restart d =>
    match t.restart d with
    | .error e => .error e
    | .ok (t2, _) => .ok t2
  | .poll readiness r =>
    match t.poll readiness r with
    | .error e => .error e
    | .ok (_, t2, _) => .ok t2

/-- Apply a sequence of public operations; a panic stops the run. -/
def TimerFd.run (t : TimerFd) : List Op → Except String TimerFd
  | [] => .ok t
  | op :: ops =>
    match t.step op with
    | .error e => .error e
    | .ok t2 => TimerFd.run t2 ops

/-- C1: at the input the claim covers — a timer in `Running(false)`, the
readiness check reporting Ready/readable, and the driver read returning a
genuine expiration count of `1` — `poll` returns ready, yet the state it
leaves behind is still `Running(false)` and `is_expired` is still `false`:
the transition to `Running(true)` the claim (and the spec) require never
happens, because the `Running(false)` arm returns `Ready(())` without
assigning the state. -/
theorem C1_poll_ready_leaves_expired_false :
    TimerFd.poll ⟨⟨3⟩, .Running false⟩ (.readyOk true) (.success 1)
      = .ok (.ready, ⟨⟨3⟩, .Running false⟩, [.clear_read_ready, .fd_read])
    ∧ TimerFd.is_expired ⟨⟨3⟩, .Running false⟩ = false := by
  decide

/-- C2 counterexample: constructing a timer with the 5-second duration (and
the OS handing out fd 3) emits `timerfd_create` already during `new` — the
call trace of construction is non-empty and consists exactly of the OS timer
allocation, refuting "touches no OS resource / never performs OS timer
allocation". -/
theorem C2_new_allocates_eagerly :
    TimerFd.new 3 ⟨5, 0⟩ = .ok (⟨⟨3⟩, .Init ⟨5, 0⟩⟩, [.timerfd_create])
    ∧ ([OsCall.timerfd_create] : List OsCall) ≠ [] := by
  decide

/-- C2 amended: for every non-zero duration and successfully created fd,
`new` constructs the timer in `Init(d)` and its trace is exactly the eager
`timerfd_create`: the OS timer resource is created during construction, and
only the arming (`timerfd_settime`) is deferred to the first poll. -/
theorem C2_new_init_state_arming_deferred (osFd : Int) (d : Duration)
    (hd : d.isZero = false) (hfd : osFd ≠ -1) :
    TimerFd.new osFd d = .ok (⟨⟨osFd⟩, .Init d⟩, [.timerfd_create]) := by
  simp [TimerFd.new, RawTimer.new, hd, hfd]

/-- C2 witness: the amended statement at duration 5 s and fd 3. -/
theorem C2_new_init_state_arming_deferred_witness :
    Duration.isZero ⟨5, 0⟩ = false ∧ (3 : Int) ≠ -1
    ∧ TimerFd.new 3 ⟨5, 0⟩ = .ok (⟨⟨3⟩, .Init ⟨5, 0⟩⟩, [.timerfd_create]) :=
  ⟨by decide, by decide,
    C2_new_init_state_arming_deferred 3 ⟨5, 0⟩ (by decide) (by decide)⟩

/-- C4: from `Running(false)`, when the readiness check reports
Ready/readable but the driver read yields the spurious count `0` (`None`),
`poll` returns pending, leaves the timer — in particular its state
`Running(false)` — unchanged, and its trace is exactly the edge clear and
the read: no `timerfd_settime`, hence no re-arm. -/
theorem C4_spurious_wake_stays_pending (t : TimerFd) (r : ReadResult)
    (hs : t.state = .Running false)
    (hr : RawTimer.read t.fd r = .ok 0) :
    t.poll (.readyOk true) r
      = .ok (.pending, t, [.clear_read_ready, .fd_read]) := by
  simp [TimerFd.poll, hs, TimerFd.pollArmed, hr]

/-- C4 witness: the timer on fd 3 in `Running(false)` with the OS read
reporting `WouldBlock`. -/
theorem C4_spurious_wake_stays_pending_witness :
    (⟨⟨3⟩, .Running false⟩ : TimerFd).state = .Running false
    ∧ RawTimer.read ⟨3⟩ (.err .WouldBlock) = .ok 0
    ∧ TimerFd.poll ⟨⟨3⟩, .Running false⟩ (.readyOk true) (.err .WouldBlock)
        = .ok (.pending, ⟨⟨3⟩, .Running false⟩, [.clear_read_ready, .fd_read]) :=
  ⟨rfl, rfl,
    C4_spurious_wake_stays_pending ⟨⟨3⟩, .Running false⟩ (.err .WouldBlock) rfl rfl⟩

/-- C5 counterexample: in `Init` (duration 5 s, fd 3) `cancel` is not a
no-op on the OS: its call trace is the non-empty `timerfd_settime` with the
all-zero `itimerspec`, refuting "it touches no OS resource" there. -/
theorem C5_cancel_in_init_touches_os :
    (TimerFd.cancel ⟨⟨3⟩, .Init ⟨5, 0⟩⟩).2 = [.timerfd_settime Itimerspec.zeroed]
    ∧ (TimerFd.cancel ⟨⟨3⟩, .Init ⟨5, 0⟩⟩).2 ≠ [] := by
  decide

/-- C5 amended: `cancel` is safe (total) in every state and never changes
the timer value; calling it twice issues the same call trace as once and
leaves the same OS timer configuration as once, so it is idempotent — but
even in `Init` each call issues a zero-length `timerfd_settime` rather than
touching nothing. -/
theorem C5_cancel_idempotent (t : TimerFd) (cfg : Itimerspec) :
    (t.cancel).1 = t
    ∧ ((t.cancel).1.cancel).1 = (t.cancel).1
    ∧ ((t.cancel).1.cancel).2 = (t.cancel).2
    ∧ applyCalls cfg ((t.cancel).2 ++ ((t.cancel).1.cancel).2)
        = applyCalls cfg (t.cancel).2 :=
  ⟨rfl, rfl, rfl, rfl⟩

/-- C6 counterexample: after `cancel` on a timer in `Running(false)`,
`is_ticking` still returns `true`, not `false`: `cancel` never updates the
state field, so the disarm is invisible to `is_ticking`. -/
theorem C6_ticking_still_true_after_cancel :
    TimerFd.is_ticking ((TimerFd.cancel ⟨⟨3⟩, .Running false⟩).1) = true := by
  decide

/-- C6 amended: from `Running(false)`, `is_ticking` is `true`; `cancel`
disarms the OS resource (its trace leaves the all-zero configuration) and
the instance remains reusable via `restart` (which re-arms with the new
duration) — but since `cancel` leaves the state unchanged, `is_ticking`
still returns `true` after it, not `false`. -/
theorem C6_cancel_disarms_but_keeps_state (t : TimerFd) (cfg : Itimerspec)
    (d : Duration) (hs : t.state = .Running false) (hd : d.isZero = false) :
    t.is_ticking = true
    ∧ ((t.cancel).1).is_ticking = true
    ∧ applyCalls cfg (t.cancel).2 = Itimerspec.zeroed
    ∧ ((t.cancel).1).restart d
        = .ok (⟨t.fd, .Running false⟩, [.timerfd_settime ⟨Duration.zero, d⟩]) := by
  refine ⟨?_, ?_, rfl, ?_⟩
  · simp [TimerFd.is_ticking, hs]
  · simp [TimerFd.cancel, TimerFd.is_ticking, hs]
  · simp [TimerFd.cancel, TimerFd.restart, hd, hs, set_timer_value, RawTimer.set]

/-- C6 witness: the amended statement on fd 3, in `Running(false)`, with an
arbitrary previous configuration and restart duration 1 s. -/
theorem C6_cancel_disarms_but_keeps_state_witness :
    (⟨⟨3⟩, .Running false⟩ : TimerFd).state = .Running false
    ∧ Duration.isZero ⟨1, 0⟩ = false
    ∧ (TimerFd.is_ticking ⟨⟨3⟩, .Running false⟩ = true
       ∧ TimerFd.is_ticking ((TimerFd.cancel ⟨⟨3⟩, .Running false⟩).1) = true
       ∧ applyCalls ⟨⟨7, 0⟩, ⟨7, 0⟩⟩ (TimerFd.cancel ⟨⟨3⟩, .Running false⟩).2
           = Itimerspec.zeroed
       ∧ ((TimerFd.cancel ⟨⟨3⟩, .Running false⟩).1).restart ⟨1, 0⟩
           = .ok (⟨⟨3⟩, .Running false⟩,
                  [.timerfd_settime ⟨Duration.zero, ⟨1, 0⟩⟩])) :=
  ⟨rfl, by decide,
    C6_cancel_disarms_but_keeps_state ⟨⟨3⟩, .Running false⟩ ⟨⟨7, 0⟩, ⟨7, 0⟩⟩
      ⟨1, 0⟩ rfl (by decide)⟩

/-- C8: for a non-zero duration `d`, `restart` from `Init(old)` only
replaces the stored duration (state becomes `Init(d)`) with an empty call
trace, and `restart` from `Running(b)` clears the expired flag (state
becomes `Running(false)`) and re-arms the held resource with exactly one
`timerfd_settime` of `d` — in neither case does the trace contain
`timerfd_create`. -/
theorem C8_restart_in_init_and_running (t : TimerFd) (d : Duration)
    (hd : d.isZero = false) :
    (∀ old, t.state = .Init old → t.restart d = .ok (⟨t.fd, .Init d⟩, []))
    ∧ (∀ b, t.state = .Running b →
        t.restart d
          = .ok (⟨t.fd, .Running false⟩, [.timerfd_settime ⟨Duration.zero, d⟩])) := by
  constructor
  · intro old hs
    simp [TimerFd.restart, hd, hs]
  · intro b hs
    simp [TimerFd.restart, hd, hs, set_timer_value, RawTimer.set]

/-- C8 witness: restart with 2 s from `Init(5 s)` on fd 3. -/
theorem C8_restart_in_init_and_running_witness :
    Duration.isZero ⟨2, 0⟩ = false
    ∧ (⟨⟨3⟩, .Init ⟨5, 0⟩⟩ : TimerFd).state = .Init ⟨5, 0⟩
    ∧ TimerFd.restart ⟨⟨3⟩, .Init ⟨5, 0⟩⟩ ⟨2, 0⟩ = .ok (⟨⟨3⟩, .Init ⟨2, 0⟩⟩, []) :=
  ⟨by decide, rfl,
    (C8_restart_in_init_and_running ⟨⟨3⟩, .Init ⟨5, 0⟩⟩ ⟨2, 0⟩ (by decide)).1
      ⟨5, 0⟩ rfl⟩

/-- C10: provided a successful timerfd read never reports a zero count
(the kernel guarantee for timerfd), the driver read returns the spurious
count `0` exactly when the OS read failed with `WouldBlock`; every other
read error panics with "Unexpected read error", and resource creation
failure (`timerfd_create` returning `-1`) is fatal via `os_assert!`. -/
theorem C10_read_spurious_iff_wouldblock (t : RawTimer) (r : ReadResult)
    (hr : r ≠ .success 0) :
    (t.read r = .ok 0 ↔ r = .err .WouldBlock)
    ∧ (∀ msg, t.read (.err (.Other msg)) = .error ("Unexpected read error: " ++ msg))
    ∧ RawTimer.new (-1) = .error "os_assert failed: fd != -1" := by
  refine ⟨?_, fun msg => rfl, by simp [RawTimer.new]⟩
  cases r with
  | err k =>
    cases k with
    | WouldBlock => simp [RawTimer.read]
    | Other m => simp [RawTimer.read]
  | success n =>
    cases n with
    | zero => exact absurd rfl hr
    | succ m => simp [RawTimer.read]

/-- C10 witness: the OS read reporting `WouldBlock` on fd 3. -/
theorem C10_read_spurious_iff_wouldblock_witness :
    (ReadResult.err .WouldBlock ≠ ReadResult.success 0)
    ∧ ((RawTimer.read ⟨3⟩ (.err .WouldBlock) = .ok 0
          ↔ (ReadResult.err .WouldBlock : ReadResult) = .err .WouldBlock)
       ∧ (∀ msg, RawTimer.read ⟨3⟩ (.err (.Other msg))
            = .error ("Unexpected read error: " ++ msg))
       ∧ RawTimer.new (-1) = .error "os_assert failed: fd != -1") :=
  ⟨by decide, C10_read_spurious_iff_wouldblock ⟨3⟩ (.err .WouldBlock) (by decide)⟩

/-- C7: for the zero duration (zero seconds, zero nanoseconds) both `new`
and `restart` fail the `debug_assert!` with "Zero timeout makes no sense"
(a panic, i.e. program termination in debug builds) instead of accepting
the value or returning a recoverable error. -/
theorem C7_zero_duration_asserts (osFd : Int) (t : TimerFd) :
    TimerFd.new osFd ⟨0, 0⟩ = .error "Zero timeout makes no sense"
    ∧ t.restart ⟨0, 0⟩ = .error "Zero timeout makes no sense" := by
  refine ⟨rfl, ?_⟩
  simp [TimerFd.restart, Duration.isZero]

/-- C9: `is_ticking = true` implies `is_expired = false`, and the states in
which both are `false` are exactly the `Init` states. -/
theorem C9_ticking_implies_not_expired (t : TimerFd) :
    (t.is_ticking = true → t.is_expired = false)
    ∧ ((t.is_ticking = false ∧ t.is_expired = false) ↔ t.state.isInit = true) := by
  obtain ⟨fd, st⟩ := t
  cases st with
  | Init d => simp [TimerFd.is_ticking, TimerFd.is_expired, State.isInit]
  | Running b => cases b <;>
      simp [TimerFd.is_ticking, TimerFd.is_expired, State.isInit]

/-- Every successful exit of the `Running(false)` poll arm returns the
timer it was given (the source returns from inside the match without
assigning `self.state`). -/
theorem pollArmed_preserves_timer (t : TimerFd) (readiness : ReadyPoll)
    (r : ReadResult) (acc : List OsCall) (out : PollOut) (t2 : TimerFd)
    (calls : List OsCall)
    (h : TimerFd.pollArmed t readiness r acc = .ok (out, t2, calls)) :
    t2 = t := by
  unfold TimerFd.pollArmed at h
  split at h
  · simp only [Except.ok.injEq, Prod.mk.injEq] at h
    exact h.2.1.symm
  · simp at h
  · simp only [Except.ok.injEq, Prod.mk.injEq] at h
    exact h.2.1.symm
  · split at h
    · simp at h
    · simp only [Except.ok.injEq, Prod.mk.injEq] at h
      exact h.2.1.symm
    · simp only [Except.ok.injEq, Prod.mk.injEq] at h
      exact h.2.1.symm

/-- A single public operation never produces the state `Running(true)`:
`cancel` keeps the state, `restart` produces `Init` or `Running(false)`,
and `poll` either keeps the state or moves `Init` to `Running(false)`. -/
theorem step_preserves_unexpired (t t2 : TimerFd) (op : Op)
    (h0 : t.state ≠ .Running true) (h : t.step op = .ok t2) :
    t2.state ≠ .Running true := by
  cases op with
  | cancel =>
    simp only [TimerFd.step, Except.ok.injEq] at h
    rw [← h]
    exact h0
  | restart d =>
    simp only [TimerFd.step] at h
    split at h
    · simp at h
    · rename_i t3 calls heq
      simp only [Except.ok.injEq] at h
      subst h
      unfold TimerFd.restart at heq
      split at heq
      · simp at heq
      · split at heq <;>
          · simp only [Except.ok.injEq, Prod.mk.injEq] at heq
            rw [← heq.1]
            simp
  | poll readiness r =>
    simp only [TimerFd.step] at h
    split at h
    · simp at h
    · rename_i out t3 calls heq
      simp only [Except.ok.injEq] at h
      subst h
      unfold TimerFd.poll at heq
      split at heq
      · rename_i timeout hst
        rw [pollArmed_preserves_timer _ _ _ _ _ _ _ heq]
        simp
      · rename_i hst
        rw [pollArmed_preserves_timer _ _ _ _ _ _ _ heq, hst]
        simp
      · rename_i hst
        simp only [Except.ok.injEq, Prod.mk.injEq] at heq
        rw [← heq.2.1]
        exact h0

/-- A whole sequence of public operations never produces `Running(true)`
when started from a state other than `Running(true)`. -/
theorem run_preserves_unexpired (ops : List Op) (t t2 : TimerFd)
    (h0 : t.state ≠ .Running true) (h : t.run ops = .ok t2) :
    t2.state ≠ .Running true := by
  induction ops generalizing t with
  | nil =>
    simp only [TimerFd.run, Except.ok.injEq] at h
    rw [← h]
    exact h0
  | cons op ops ih =>
    unfold TimerFd.run at h
    split at h
    · simp at h
    · rename_i tmid heq
      exact ih tmid (step_preserves_unexpired t tmid op h0 heq) h

/-- C3: for every sequence of public operations (`cancel`, `restart`,
`poll` with arbitrary environment responses) on a freshly constructed
timer, the state `Running(true)` is never reached — no operation sets the
expired flag (`poll` returns ready without recording it, `restart` only
clears the flag) — so `is_expired` is `false` after every such sequence. -/
theorem C3_expired_flag_never_set (osFd : Int) (d : Duration) (ops : List Op)
    (t0 t : TimerFd) (calls : List OsCall)
    (hnew : TimerFd.new osFd d = .ok (t0, calls))
    (hrun : t0.run ops = .ok t) :
    t.is_expired = false := by
  have h0 : t0.state ≠ .Running true := by
    unfold TimerFd.new at hnew
    split at hnew
    · simp at hnew
    · unfold RawTimer.new at hnew
      split at hnew
      · simp at hnew
      · simp only [Except.ok.injEq, Prod.mk.injEq] at hnew
        rw [← hnew.1]
        simp
  have h2 := run_preserves_unexpired ops t0 t h0 hrun
  unfold TimerFd.is_expired
  cases hs : t.state with
  | Init timeout => rfl
  | Running b =>
    cases b with
    | false => rfl
    | true => exact absurd hs h2

/-- C3 witness: a fresh 2-second timer on fd 3 driven through a first
pending poll, a spurious ready poll, a genuinely ready poll, a cancel and a
restart; `is_expired` is still `false` at the end. -/
theorem C3_expired_flag_never_set_witness :
    TimerFd.new 3 ⟨2, 0⟩ = .ok (⟨⟨3⟩, .Init ⟨2, 0⟩⟩, [.timerfd_create])
    ∧ TimerFd.run ⟨⟨3⟩, .Init ⟨2, 0⟩⟩
        [.poll .pending (.err .WouldBlock), .poll (.readyOk true) (.err .WouldBlock),
         .poll (.readyOk true) (.success 1), .cancel, .restart ⟨1, 0⟩]
        = .ok ⟨⟨3⟩, .Running false⟩
    ∧ TimerFd.is_expired ⟨⟨3⟩, .Running false⟩ = false :=
  ⟨by decide, by decide,
    C3_expired_flag_never_set 3 ⟨2, 0⟩
      [.poll .pending (.err .WouldBlock), .poll (.readyOk true) (.err .WouldBlock),
       .poll (.readyOk true) (.success 1), .cancel, .restart ⟨1, 0⟩]
      ⟨⟨3⟩, .Init ⟨2, 0⟩⟩ ⟨⟨3⟩, .Running false⟩ [.timerfd_create]
      (by decide) (by decide)⟩

end AsyncTimer
